import Mathlib

/-!
Shallow embedding of the bgpmon Session/Stream subsystem: the transactional
executor (ctxTx), the write-stream close paths, Session.Close, the NewSession
connection-template dispatch, SessionStream.addToBuffer, the hijack event
predicate and the periodic daemon's failure counter. Every definition is
translated from the repository sources; the one spec-modelled definition is
marked in its doc comment.
-/

/-- Error returned by Go database/sql when Commit or Rollback is called on a
transaction that has already been committed or rolled back. -/
def errTxDone : String := "sql: transaction has already been committed or rolled back"

/-- State of a Go database/sql transaction: txDone is the library's done flag
(any Commit or Rollback after the first returns ErrTxDone), while committedDb
and rolledBackDb record whether a COMMIT or a ROLLBACK was actually issued to
the database. -/
structure SqlTx where
  txDone : Bool
  committedDb : Bool
  rolledBackDb : Bool
deriving DecidableEq

/-- Go sql.Tx.Commit: the first call issues COMMIT and returns nil; any later
call returns ErrTxDone and leaves the transaction untouched. -/
def sqlTxCommit (t : SqlTx) : SqlTx × Option String :=
  if t.txDone then (t, some errTxDone)
  else ({ t with txDone := true, committedDb := true }, none)

/-- Go sql.Tx.Rollback: the first call issues ROLLBACK and returns nil; any
later call returns ErrTxDone. Present for completeness: the translated Done
below never calls it. -/
def sqlTxRollback (t : SqlTx) : SqlTx × Option String :=
  if t.txDone then (t, some errTxDone)
  else ({ t with txDone := true, rolledBackDb := true }, none)

/-- Translation of the ctxTx struct (src/unnamed/part_002, lines 267-273): the
doTx flag, the optional transaction, and the derived context's cancel function
(cfReleased records that it ran). The extra field recordedErr holds what
SetError stored; the source struct has no such field, and ctxTxDone below,
translated from the source, never reads it. -/
structure CtxTx where
  doTx : Bool
  tx : Option SqlTx
  cfReleased : Bool
  recordedErr : Option String
deriving DecidableEq

/-- Modelled from the spec: the executor method SetError is missing from the
source files (only its caller SessionStream.Cancel is present). Per the spec,
Cancel "records a sentinel error in the executor so that Done rolls back"; we
model SetError as recording the error in the executor state. -/
def ctxTxSetError (c : CtxTx) (e : String) : CtxTx :=
  { c with recordedErr := some e }

/-- Translation of ctxTx.Done (src/unnamed/part_002, lines 276-282): the
deferred cancel function always runs; when the executor was built transactional
and holds a transaction, Done returns tx.Commit(); otherwise it returns nil.
It never rolls back and never consults recordedErr. -/
def ctxTxDone (c : CtxTx) : CtxTx × Option String :=
  if c.doTx then
    match c.tx with
    | some t => ({ c with tx := some (sqlTxCommit t).1, cfReleased := true }, (sqlTxCommit t).2)
    | none => ({ c with cfReleased := true }, none)
  else
    ({ c with cfReleased := true }, none)

/-- Translation of GetNewExecutor (src/unnamed/part_002, lines 214-237): with
doTx a transaction is begun (beginOk stands for BeginTx succeeding, in which
case the fresh transaction is live and uncommitted); without doTx the executor
carries no transaction and its Done is a no-op. -/
def GetNewExecutor (doTx beginOk : Bool) : Option CtxTx :=
  if doTx then
    if beginOk then
      some { doTx := true,
             tx := some { txDone := false, committedDb := false, rolledBackDb := false },
             cfReleased := false, recordedErr := none }
    else none
  else
    some { doTx := false, tx := none, cfReleased := false, recordedErr := none }

/-- The fresh transactional executor that NewSessionStream builds for every
write stream (GetNewExecutor with doTx true). -/
def freshTxExec : CtxTx :=
  { doTx := true,
    tx := some { txDone := false, committedDb := false, rolledBackDb := false },
    cfReleased := false, recordedErr := none }

/-- A fresh direct executor (GetNewExecutor with doTx false). -/
def freshDbExec : CtxTx :=
  { doTx := false, tx := none, cfReleased := false, recordedErr := none }

/-- Translation of SessionStream.Cancel (src/db/stream_test.go, lines 336-339):
records the sentinel error in the stream's executor via SetError and returns
nil. -/
def sessionStreamCancel (c : CtxTx) : CtxTx :=
  ctxTxSetError c "Session stream cancelled"

/-- The state of a SessionStream that the close paths touch: its transactional
executor, the tables holding open insert buffers, and the closed flag set by
the listen goroutine. -/
structure StreamState where
  ex : CtxTx
  bufTables : List String
  closed : Bool
deriving DecidableEq

/-- Translation of SessionStream.Flush (src/db/stream_test.go, lines 326-332):
every buffer's Flush is called with its return value discarded (bufErrs lists
the values those calls would return), then the executor's Done is called with
its return value discarded as well; Flush itself returns nil unconditionally. -/
def sessionStreamFlush (s : StreamState) (bufErrs : List (Option String)) : StreamState × Option String :=
  ({ s with ex := (ctxTxDone s.ex).1 }, none)

/-- Translation of SessionStream.Close (src/db/stream_test.go, lines 346-353):
closes the child cancel channel and the request channel and releases the
worker-pool slot; it does not touch the executor. -/
def sessionStreamCloseOp (s : StreamState) : StreamState :=
  { s with closed := true }

/-- The owner side of a clean shutdown as exercised by the source tests and
described by the spec: Flush (which commits through the executor's Done)
followed by Close. -/
def ownerCleanClose (s : StreamState) (bufErrs : List (Option String)) : StreamState :=
  sessionStreamCloseOp (sessionStreamFlush s bufErrs).1

/-- State left by the session-initiated arm of SessionStream.listen
(src/db/stream_test.go, lines 365-386): the closed flag is set and the loop
returns; the executor is never touched on this path, so the stream's
transaction stays exactly as it was. -/
def abruptClose (s : StreamState) : StreamState :=
  { s with closed := true }

/-- Position of the Write caller inside SessionStream.Send
(src/db/stream_test.go, lines 299-322): blocked sending the capture message on
the unbuffered request channel (line 315), blocked receiving on the unbuffered
response channel (line 316), returned with the normal addToBuffer reply, or
returned with the "Channel closed" error reply of the cancel arm. -/
inductive WriterSt
  | atReqSend
  | atRespRecv
  | retNormal
  | retClosed
deriving DecidableEq

/-- Position of the listen goroutine (src/db/stream_test.go, lines 365-386):
at its select, blocked sending the normal reply for a request it received,
blocked sending the "Channel closed" reply of the cancel arm, or returned from
the loop. -/
inductive ListenSt
  | atSelect
  | atRespReply
  | atRespClosed
  | returnedSt
deriving DecidableEq

/-- Joint configuration of one Write caller, the listen goroutine, and the
not-yet-consumed abrupt cancel value forwarded from the session close. -/
structure StreamConfig where
  writer : WriterSt
  listen : ListenSt
  cancelPending : Bool
deriving DecidableEq

/-- Small-step semantics of one Write caller against the listen goroutine
under Go's unbuffered-channel rendezvous, translated from SessionStream.Send
(src/db/stream_test.go, lines 299-322) and SessionStream.listen (lines
365-386). The request send completes only with listen at its select, whose
request case evaluates addToBuffer and moves to sending the normal reply; the
select's cancel case consumes the abrupt value and moves listen to sending the
"Channel closed" reply; either reply send completes only with the writer at
its response receive, which makes Send return the delivered reply's error.
The successor list holds every configuration one rendezvous or select
commitment away; an empty successor list means every thread is blocked
forever. -/
def streamStep (c : StreamConfig) : List StreamConfig :=
  (if c.writer = WriterSt.atReqSend ∧ c.listen = ListenSt.atSelect then
    [{ c with writer := WriterSt.atRespRecv, listen := ListenSt.atRespReply }]
  else []) ++
  (if c.listen = ListenSt.atSelect ∧ c.cancelPending = true then
    [{ c with listen := ListenSt.atRespClosed, cancelPending := false }]
  else []) ++
  (if c.writer = WriterSt.atRespRecv ∧ c.listen = ListenSt.atRespReply then
    [{ c with writer := WriterSt.retNormal, listen := ListenSt.atSelect }]
  else []) ++
  (if c.writer = WriterSt.atRespRecv ∧ c.listen = ListenSt.atRespClosed then
    [{ c with writer := WriterSt.retClosed, listen := ListenSt.returnedSt }]
  else [])

/-- Reachability along streamStep: zero or more interleaved steps. -/
inductive streamReach : StreamConfig → StreamConfig → Prop
  | refl (a : StreamConfig) : streamReach a a
  | tail {a b c2 : StreamConfig} : streamReach a b → c2 ∈ streamStep b → streamReach a c2

/-- The failing input of the claim: a capture write stream with one Write
pending at the moment of a session-initiated close — the caller is blocked on
the request send, listen is at its select, and the abrupt cancel value is
available. -/
def pendingWriteAtClose : StreamConfig :=
  { writer := WriterSt.atReqSend, listen := ListenSt.atSelect, cancelPending := true }

/-- The deadlocked configuration: listen took the cancel arm and blocks
forever sending the "Channel closed" reply, while the Write blocks forever on
the request send. -/
def deadlockCfg : StreamConfig :=
  { writer := WriterSt.atReqSend, listen := ListenSt.atRespClosed, cancelPending := false }

/-- The configuration where the pending Write completed normally, with no
error, because the select consumed its request before the cancel. -/
def writeDoneCfg : StreamConfig :=
  { writer := WriterSt.retNormal, listen := ListenSt.atSelect, cancelPending := true }

/-- The configuration with the writer at its response receive while listen
sends the cancel arm's reply: the only rendezvous that would deliver the
"Channel closed" error to a Write caller. -/
def deliverySrcCfg : StreamConfig :=
  { writer := WriterSt.atRespRecv, listen := ListenSt.atRespClosed, cancelPending := false }

/-- The configuration after that delivery: Send returned the "Channel closed"
error. -/
def deliveredCfg : StreamConfig :=
  { writer := WriterSt.retClosed, listen := ListenSt.returnedSt, cancelPending := false }

/-- The configuration after the select consumed the pending request: the
writer awaits its reply and listen is sending the normal addToBuffer reply. -/
def midCfg : StreamConfig :=
  { writer := WriterSt.atRespRecv, listen := ListenSt.atRespReply, cancelPending := true }

/-- Every configuration reachable from pendingWriteAtClose; closure under
streamStep is proved below. -/
def pendingWriteReachSet : List StreamConfig :=
  [ pendingWriteAtClose,
    midCfg,
    deadlockCfg,
    writeDoneCfg,
    { writer := WriterSt.retNormal, listen := ListenSt.atRespClosed, cancelPending := false } ]

/-- The resources of a Session that Close can touch: the session-wide cancel
channel, the worker pool (closing it waits for outstanding slots, per the
spec's worker-pool contract), the schema manager and the DB handle. -/
structure SessionState where
  cancelClosed : Bool
  wpClosed : Bool
  schemaStopped : Bool
  dbClosed : Bool
deriving DecidableEq

/-- Translation of Session.Close (src/db/stream_test.go, lines 515-523): closes
the cancel channel, closes the worker pool and stops the schema manager; no
other resource is touched and nil is returned. -/
def sessionClose (s : SessionState) : SessionState :=
  { s with cancelClosed := true, wpClosed := true, schemaStopped := true }

/-- The configuration fields NewSession reads (src/db/stream_test.go, lines
445-462). -/
structure SessionConfig where
  typeName : String
  user : String
  password : String
  databaseName : String
  hostNames : List String
  certDir : String
deriving DecidableEq

/-- Outcome of the type and connection-template dispatch of NewSession. -/
inductive ConnOutcome
  | noSSLTemplate
  | sslTemplate
  | configErr (msg : String)
  | notSupported (msg : String)
  | unknownType (msg : String)
deriving DecidableEq

/-- Translation of the type switch and template dispatch of NewSession
(src/db/stream_test.go, lines 464-482). -/
def newSessionSelect (c : SessionConfig) : ConnOutcome :=
  if c.typeName = "postgres" then
    if c.hostNames.length = 1 ∧ c.password ≠ "" ∧ c.certDir = "" ∧ c.user ≠ "" then
      ConnOutcome.noSSLTemplate
    else if c.certDir ≠ "" ∧ c.user ≠ "" then
      ConnOutcome.sslTemplate
    else
      ConnOutcome.configErr "Postgres sessions require a password and exactly one hostname"
  else if c.typeName = "cockroachdb" then
    ConnOutcome.notSupported "cockroach not yet supported"
  else
    ConnOutcome.unknownType "Unknown session type"

/-- The connectNoSSL template (src/unnamed/part_002, lines 32-35) as applied by
fmt.Sprintf. -/
def connectNoSSLStr (u p d h : String) : String :=
  "user=" ++ u ++ " password=" ++ p ++ " dbname=" ++ d ++ " host=" ++ h ++ " sslmode=disable"

/-- The connectSSL template (src/unnamed/part_002, lines 36-39) as applied by
fmt.Sprintf. -/
def connectSSLStr (u p d h : String) : String :=
  "user=" ++ u ++ " password=" ++ p ++ " dbname=" ++ d ++ " host=" ++ h

/-- Result of running NewSession up to and including the sql.Open call: opened
carries the connection string handed to sql.Open; indexOutOfRange is the Go
runtime panic raised by the expression h[0] on an empty hostNames slice
(src/db/stream_test.go, line 474). -/
inductive SessionResult
  | opened (connStr : String)
  | errConfig (msg : String)
  | errNotSupported (msg : String)
  | errUnknown (msg : String)
  | indexOutOfRange
deriving DecidableEq

/-- Translation of NewSession through the sql.Open call (src/db/stream_test.go,
lines 445-482): after the template dispatch the connection string is built with
fmt.Sprintf from h[0], which panics when hostNames is empty. -/
def newSessionRun (c : SessionConfig) : SessionResult :=
  match newSessionSelect c with
  | ConnOutcome.noSSLTemplate =>
    match c.hostNames with
    | [] => SessionResult.indexOutOfRange
    | h0 :: _ => SessionResult.opened (connectNoSSLStr c.user c.password c.databaseName h0)
  | ConnOutcome.sslTemplate =>
    match c.hostNames with
    | [] => SessionResult.indexOutOfRange
    | h0 :: _ => SessionResult.opened (connectSSLStr c.user c.password c.databaseName h0)
  | ConnOutcome.configErr m => SessionResult.errConfig m
  | ConnOutcome.notSupported m => SessionResult.errNotSupported m
  | ConnOutcome.unknownType m => SessionResult.errUnknown m

/-- True exactly on the ConfigError result of NewSession. -/
def isErrConfig : SessionResult → Bool
  | SessionResult.errConfig _ => true
  | _ => false

/-- The row handed to the insert buffer's Add by SessionStream.addToBuffer, in
argument order. -/
structure CaptureRow where
  ts : Nat
  colIP : String
  peerIP : String
  asPath : List Int
  nextHop : String
  originAs : Int
  advertized : List String
  withdrawn : List String
  protoMsg : List Nat
deriving DecidableEq

/-- Translation of SessionStream.addToBuffer (src/db/stream_test.go, lines
388-429): a capture whose peer IP fails to parse is ignored (none); otherwise
the next hop defaults to 0.0.0.0 when GetNextHop fails, and the origin AS is
the last element of the AS path, or 0 when the path is empty. -/
def addToBufferRow (ts : Nat) (colIP : String) (peerIP : Option String)
    (asPath : List Int) (nextHop : Option String)
    (adv wdr : List String) (pm : List Nat) : Option CaptureRow :=
  match peerIP with
  | none => none
  | some pip =>
    some { ts := ts, colIP := colIP, peerIP := pip, asPath := asPath,
           nextHop := (match nextHop with | none => "0.0.0.0" | some nh => nh),
           originAs := (if asPath.length ≠ 0 then asPath.getD (asPath.length - 1) 0 else 0),
           advertized := adv, withdrawn := wdr, protoMsg := pm }

/-- Last element of an AS path, or 0 when the path is empty. -/
def lastOrZero (l : List Int) : Int :=
  match l.getLast? with
  | some a => a
  | none => 0

/-- Concrete row produced by addToBufferRow on a capture with AS path 3, 7 and
an unparsable next hop. -/
def rowEx : CaptureRow :=
  { ts := 0, colIP := "10.0.0.1", peerIP := "10.0.0.2", asPath := [3, 7],
    nextHop := "0.0.0.0", originAs := 7, advertized := [], withdrawn := [],
    protoMsg := [] }

/-- Inner loop of hijackModule.isEvent (src/unnamed/part_001, lines 87-97):
scans the AS path for one owned origin. -/
def asPathHas (path : List Int) (a : Int) : Bool :=
  match path with
  | [] => false
  | s :: rest => if s = a then true else asPathHas rest a

/-- Translation of hijackModule.isEvent (src/unnamed/part_001, lines 87-97): a
capture counts as an event when no owned origin of the entity appears anywhere
in its AS path. -/
def isEvent : List Int → List Int → Bool
  | [], _ => true
  | a :: rest, path => if asPathHas path a = true then false else isEvent rest path

/-- Translation of the tick loop of periodicModule.Run (src/unnamed/part_000,
lines 41-65): each list element is the success of one RunModule call on a tick,
errC counts consecutive failures and a success resets it; when errC reaches 5
the finish callback is invoked and the daemon returns. The value some n means
the daemon self-terminated through its finish callback after consuming n ticks;
none means the listed ticks ran out with the daemon still alive. -/
def periodicRun : List Bool → Nat → Option Nat
  | [], _ => none
  | ok :: rest, errC =>
    let e := if ok then 0 else errC + 1
    if 5 ≤ e then some 1
    else
      match periodicRun rest e with
      | some n => some (n + 1)
      | none => none

/-- Length of the leading run of failed ticks. -/
def leadFalse : List Bool → Nat
  | [] => 0
  | true :: _ => 0
  | false :: rest => leadFalse rest + 1

/-- A stream state owning a fresh transactional executor, as after
NewSessionStream. -/
def streamStateEx : StreamState :=
  { ex := freshTxExec, bufTables := [], closed := false }

/-- A stream state whose executor transaction is already finished, so that a
further Done would return ErrTxDone. -/
def streamStateDoneEx : StreamState :=
  { ex := { doTx := true,
            tx := some { txDone := true, committedDb := true, rolledBackDb := false },
            cfReleased := true, recordedErr := none },
    bufTables := ["t1"], closed := false }

/-- A postgres configuration meeting the no-SSL criteria. -/
def cfgNoSSL : SessionConfig :=
  { typeName := "postgres", user := "u", password := "pw", databaseName := "db",
    hostNames := ["h1"], certDir := "" }

/-- A postgres configuration with certDir and user set but no hostnames. -/
def cfgSSLNoHost : SessionConfig :=
  { typeName := "postgres", user := "u", password := "pw", databaseName := "db",
    hostNames := [], certDir := "/certs" }

/-- A session with every resource still open. -/
def sessionOpenAll : SessionState :=
  { cancelClosed := false, wpClosed := false, schemaStopped := false, dbClosed := false }

/-- The leading run of failures is no longer than the list. -/
theorem leadFalse_le_length (l : List Bool) : leadFalse l ≤ l.length := by
  induction l with
  | nil => exact Nat.le_refl 0
  | cons b t ih =>
    cases b with
    | true => simp [leadFalse]
    | false =>
      simp only [leadFalse, List.length_cons]
      omega

/-- Every position inside the leading run of failures holds a failure. -/
theorem getD_of_lt_leadFalse (l : List Bool) (j : Nat) (h : j < leadFalse l) :
    l.getD j true = false := by
  induction l generalizing j with
  | nil => simp [leadFalse] at h
  | cons b t ih =>
    cases b with
    | true => simp [leadFalse] at h
    | false =>
      cases j with
      | zero => rfl
      | succ k =>
        simp only [leadFalse] at h
        rw [List.getD_cons_succ]
        exact ih k (by omega)

/-- When every window of five consecutive ticks holds a success, the failure
counter never reaches 5 and the periodic loop runs through all ticks. -/
theorem periodicRun_no_five (l : List Bool) :
    ∀ errC : Nat, errC + leadFalse l < 5 →
    (∀ i, i < l.length → i + 5 ≤ l.length → ∃ j, j < 5 ∧ l.getD (i + j) true = true) →
    periodicRun l errC = none := by
  induction l with
  | nil => intro errC _ _; rfl
  | cons b t ih =>
    intro errC hlead hwin
    have hshift : ∀ i, i < t.length → i + 5 ≤ t.length →
        ∃ j, j < 5 ∧ t.getD (i + j) true = true := by
      intro i hi hi5
      obtain ⟨j, hj5, hjt⟩ := hwin (i + 1) (by simp only [List.length_cons]; omega)
        (by simp only [List.length_cons]; omega)
      refine ⟨j, hj5, ?_⟩
      have hidx : i + 1 + j = i + j + 1 := by omega
      rw [hidx, List.getD_cons_succ] at hjt
      exact hjt
    cases b with
    | true =>
      have ht : leadFalse t < 5 := by
        by_contra hge
        push_neg at hge
        have hlen5 : 5 ≤ t.length := le_trans hge (leadFalse_le_length t)
        obtain ⟨j, hj5, hjt⟩ := hshift 0 (by omega) (by omega)
        have hf := getD_of_lt_leadFalse t (0 + j) (by omega)
        rw [hf] at hjt
        exact Bool.false_ne_true hjt
      have hrec := ih 0 (by omega) hshift
      simp [periodicRun, hrec]
    | false =>
      have hl : leadFalse (false :: t) = leadFalse t + 1 := rfl
      rw [hl] at hlead
      have hnot : ¬ 5 ≤ errC + 1 := by omega
      have hrec := ih (errC + 1) (by omega) hshift
      simp [periodicRun, hnot, hrec]

/-- The inner loop finds an owned origin exactly when it is a member of the
path. -/
theorem asPathHas_iff (path : List Int) (a : Int) : asPathHas path a = true ↔ a ∈ path := by
  induction path with
  | nil => simp [asPathHas]
  | cons s rest ih =>
    by_cases h : s = a
    · subst h
      simp [asPathHas]
    · have hstep : asPathHas (s :: rest) a = asPathHas rest a := by
        simp [asPathHas, h]
      rw [hstep, ih]
      constructor
      · exact fun hm => List.mem_cons_of_mem s hm
      · intro hm
        rcases List.mem_cons.mp hm with heq | hm'
        · exact absurd heq.symm h
        · exact hm'

/-- Indexing a list at length minus one yields its last element, or the default
0 on the empty list. -/
theorem getD_last_eq (l : List Int) : l.getD (l.length - 1) 0 = lastOrZero l := by
  induction l with
  | nil => rfl
  | cons a t ih =>
    cases t with
    | nil => rfl
    | cons b u =>
      have h1 : (a :: b :: u).length - 1 = (b :: u).length - 1 + 1 := by
        simp only [List.length_cons]
        omega
      have h2 : lastOrZero (a :: b :: u) = lastOrZero (b :: u) := by
        unfold lastOrZero
        rw [List.getLast?_cons_cons]
      rw [h1, List.getD_cons_succ, ih, h2]

/-- The origin computation of addToBuffer equals last-or-zero. -/
theorem origin_eq_lastOrZero (l : List Int) :
    (if l.length ≠ 0 then l.getD (l.length - 1) 0 else 0) = lastOrZero l := by
  by_cases h : l.length = 0
  · have hnil : l = [] := List.length_eq_zero.mp h
    subst hnil
    rfl
  · rw [if_pos h]
    exact getD_last_eq l

/-- Every configuration reachable from a Write pending at a session-initiated
close lies in the enumerated set: the set contains the start and is closed
under streamStep. -/
theorem streamReach_mem_pendingWriteReachSet (c : StreamConfig)
    (h : streamReach pendingWriteAtClose c) : c ∈ pendingWriteReachSet := by
  induction h with
  | refl => decide
  | tail _ hmem ih =>
    exact (by decide :
      ∀ b ∈ pendingWriteReachSet, ∀ c2 ∈ streamStep b, c2 ∈ pendingWriteReachSet) _ ih _ hmem

/-- C1: evaluation of the code at the failing input. Starting from a capture
write stream with one Write pending on the request send at the moment of a
session-initiated close, no interleaving ever returns the "Channel closed"
error to the Write caller. One interleaving reaches the deadlock where listen
blocks forever sending the "Channel closed" reply and the Write blocks forever
on the request send; the other completes the Write normally with no error.
The rendezvous that would deliver the "Channel closed" reply exists in the
step relation but is unreachable. The abrupt path never touches the executor,
so the stream's transaction stays uncommitted, while the owner's clean
shutdown (Flush then Close) commits it. -/
theorem c1_abrupt_close_error_never_delivered :
    (∀ c : StreamConfig, streamReach pendingWriteAtClose c → c.writer ≠ WriterSt.retClosed)
    ∧ streamReach pendingWriteAtClose deadlockCfg
    ∧ streamStep deadlockCfg = []
    ∧ streamReach pendingWriteAtClose writeDoneCfg
    ∧ deliveredCfg ∈ streamStep deliverySrcCfg
    ∧ ¬ streamReach pendingWriteAtClose deliverySrcCfg
    ∧ (∀ s : StreamState,
        s.ex.tx = some { txDone := false, committedDb := false, rolledBackDb := false } →
        (abruptClose s).ex.tx
          = some { txDone := false, committedDb := false, rolledBackDb := false })
    ∧ (∀ (s : StreamState) (bufErrs : List (Option String)),
        s.ex.doTx = true →
        s.ex.tx = some { txDone := false, committedDb := false, rolledBackDb := false } →
        (ownerCleanClose s bufErrs).ex.tx
          = some { txDone := true, committedDb := true, rolledBackDb := false }) := by
  refine ⟨?_, ?_, ?_, ?_, ?_, ?_, ?_, ?_⟩
  · intro c h
    exact (by decide : ∀ x ∈ pendingWriteReachSet, x.writer ≠ WriterSt.retClosed) c
      (streamReach_mem_pendingWriteReachSet c h)
  · exact @streamReach.tail pendingWriteAtClose pendingWriteAtClose deadlockCfg
      (streamReach.refl pendingWriteAtClose) (by decide)
  · decide
  · exact @streamReach.tail pendingWriteAtClose midCfg writeDoneCfg
      (@streamReach.tail pendingWriteAtClose pendingWriteAtClose midCfg
        (streamReach.refl pendingWriteAtClose) (by decide)) (by decide)
  · decide
  · intro h
    exact absurd (streamReach_mem_pendingWriteReachSet deliverySrcCfg h) (by decide)
  · intro s htx
    simpa [abruptClose] using htx
  · intro s bufErrs hdo htx
    simp [ownerCleanClose, sessionStreamCloseOp, sessionStreamFlush, ctxTxDone, hdo, htx,
      sqlTxCommit]

/-- Witness for C1 at concrete configurations: the normally-completed
configuration carries no "Channel closed" return, and the executor facts hold
at the concrete fresh-transaction stream. -/
theorem c1_abrupt_close_error_never_delivered_w :
    writeDoneCfg.writer ≠ WriterSt.retClosed
    ∧ ((abruptClose streamStateEx).ex.tx
        = some { txDone := false, committedDb := false, rolledBackDb := false })
    ∧ ((ownerCleanClose streamStateEx []).ex.tx
        = some { txDone := true, committedDb := true, rolledBackDb := false }) :=
  ⟨c1_abrupt_close_error_never_delivered.1 writeDoneCfg
      (@streamReach.tail pendingWriteAtClose midCfg writeDoneCfg
        (@streamReach.tail pendingWriteAtClose pendingWriteAtClose midCfg
          (streamReach.refl pendingWriteAtClose) (by decide)) (by decide)),
   c1_abrupt_close_error_never_delivered.2.2.2.2.2.2.1 streamStateEx rfl,
   c1_abrupt_close_error_never_delivered.2.2.2.2.2.2.2 streamStateEx [] rfl rfl⟩

/-- C2: contrary to the claim, Cancel's recorded sentinel error does not make
Done roll back: on a transactional executor with a live transaction, Done after
Cancel still commits the transaction to the database, returns nil, and never
issues a rollback. -/
theorem c2_cancel_then_done_commits (c : CtxTx)
    (hdo : c.doTx = true)
    (htx : c.tx = some { txDone := false, committedDb := false, rolledBackDb := false }) :
    ((ctxTxDone (sessionStreamCancel c)).2 = none)
    ∧ ((ctxTxDone (sessionStreamCancel c)).1.tx
        = some { txDone := true, committedDb := true, rolledBackDb := false }) := by
  constructor
  · simp [sessionStreamCancel, ctxTxSetError, ctxTxDone, hdo, htx, sqlTxCommit]
  · simp [sessionStreamCancel, ctxTxSetError, ctxTxDone, hdo, htx, sqlTxCommit]

/-- Witness for C2 at the fresh transactional executor of a write stream. -/
theorem c2_cancel_then_done_commits_w :
    ((ctxTxDone (sessionStreamCancel freshTxExec)).2 = none)
    ∧ ((ctxTxDone (sessionStreamCancel freshTxExec)).1.tx
        = some { txDone := true, committedDb := true, rolledBackDb := false }) :=
  c2_cancel_then_done_commits freshTxExec rfl rfl

/-- C3: five consecutive failed ticks make the periodic daemon invoke its
finish callback and stop after exactly those five invocations; a successful
tick resets the consecutive-failure counter (the behaviour after a success is
independent of the counter), and when every window of five consecutive ticks
holds a success the daemon never self-terminates. -/
theorem c3_periodic_five_consecutive :
    (∀ rest : List Bool, periodicRun (List.replicate 5 false ++ rest) 0 = some 5)
    ∧ (∀ (rest : List Bool) (errC : Nat),
        periodicRun (true :: rest) errC = periodicRun (true :: rest) 0)
    ∧ (∀ l : List Bool,
        (∀ i, i < l.length → i + 5 ≤ l.length → ∃ j, j < 5 ∧ l.getD (i + j) true = true) →
        periodicRun l 0 = none) := by
  refine ⟨?_, ?_, ?_⟩
  · intro rest
    show periodicRun (false :: false :: false :: false :: false :: rest) 0 = some 5
    simp [periodicRun]
  · intro rest errC
    rfl
  · intro l hwin
    have hlt : leadFalse l < 5 := by
      by_contra hge
      push_neg at hge
      have hlen5 : 5 ≤ l.length := le_trans hge (leadFalse_le_length l)
      obtain ⟨j, hj5, hjt⟩ := hwin 0 (by omega) (by omega)
      have hf := getD_of_lt_leadFalse l (0 + j) (by omega)
      rw [hf] at hjt
      exact Bool.false_ne_true hjt
    exact periodicRun_no_five l 0 (by omega) hwin

/-- Witness for C3: five straight failures stop the daemon at tick 5, while
five non-consecutive failures do not stop it. -/
theorem c3_periodic_five_consecutive_w :
    periodicRun (List.replicate 5 false ++ []) 0 = some 5
    ∧ periodicRun [false, true, false, false, false, false] 0 = none :=
  ⟨c3_periodic_five_consecutive.1 [],
   c3_periodic_five_consecutive.2.2 [false, true, false, false, false, false] (by decide)⟩

/-- C4: the hijack task counts a capture as an event exactly when no element of
its AS path equals any AS of the entity's owned-origin set. -/
theorem c4_is_event_iff (owned path : List Int) :
    isEvent owned path = true ↔ ∀ s ∈ path, ∀ a ∈ owned, s ≠ a := by
  induction owned with
  | nil => simp [isEvent]
  | cons a rest ih =>
    by_cases h : asPathHas path a = true
    · have ha : a ∈ path := (asPathHas_iff path a).1 h
      have hL : isEvent (a :: rest) path = false := by
        simp [isEvent, h]
      rw [hL]
      constructor
      · intro hft
        exact absurd hft (by decide)
      · intro hall
        exact absurd rfl (hall a ha a (List.mem_cons_self a rest))
    · have ha : a ∉ path := fun hm => h ((asPathHas_iff path a).2 hm)
      have hL : isEvent (a :: rest) path = isEvent rest path := by
        simp [isEvent, h]
      rw [hL, ih]
      constructor
      · intro hall s hs b hb
        rcases List.mem_cons.mp hb with heq | hb'
        · subst heq
          intro hsa
          exact ha (hsa ▸ hs)
        · exact hall s hs b hb'
      · intro hall s hs b hb
        exact hall s hs b (List.mem_cons_of_mem a hb)

/-- Witness for C4 on the spec's boundary scenario: owned origin 64500 against
the AS path 64501, 64502. -/
theorem c4_is_event_iff_w :
    isEvent [(64500 : Int)] [64501, 64502] = true
      ↔ ∀ s ∈ [(64501 : Int), 64502], ∀ a ∈ [(64500 : Int)], s ≠ a :=
  c4_is_event_iff [(64500 : Int)] [64501, 64502]

/-- Counterexample to C5: on the transactional executor of a write stream the
second call to Done does not return nil (it returns ErrTxDone, because Done
calls Commit again on the already-committed transaction). -/
theorem c5_second_done_cex :
    ¬ ((ctxTxDone (ctxTxDone freshTxExec).1).2 = none) := by
  decide

/-- C5 amended: Done is idempotent on the direct executor, whose every call
returns nil; on a transactional executor with a live transaction the first
Done commits and returns nil, but the second Done returns ErrTxDone. -/
theorem c5_done_amended (c : CtxTx) :
    (c.doTx = false → (ctxTxDone c).2 = none ∧ (ctxTxDone (ctxTxDone c).1).2 = none)
    ∧ (c.doTx = true →
        c.tx = some { txDone := false, committedDb := false, rolledBackDb := false } →
        (ctxTxDone c).2 = none ∧ (ctxTxDone (ctxTxDone c).1).2 = some errTxDone) := by
  constructor
  · intro hdo
    constructor
    · simp [ctxTxDone, hdo]
    · simp [ctxTxDone, hdo]
  · intro hdo htx
    constructor
    · simp [ctxTxDone, hdo, htx, sqlTxCommit]
    · simp [ctxTxDone, hdo, htx, sqlTxCommit]

/-- Witness for C5 amended at the two executor shapes GetNewExecutor builds. -/
theorem c5_done_amended_w :
    ((ctxTxDone freshDbExec).2 = none ∧ (ctxTxDone (ctxTxDone freshDbExec).1).2 = none)
    ∧ ((ctxTxDone freshTxExec).2 = none
        ∧ (ctxTxDone (ctxTxDone freshTxExec).1).2 = some errTxDone) :=
  ⟨(c5_done_amended freshDbExec).1 rfl, (c5_done_amended freshTxExec).2 rfl rfl⟩

/-- Counterexample to C6: closing a session whose DB handle is open leaves the
DB handle open, so Session.Close does not close the underlying DB handle. -/
theorem c6_close_db_cex :
    ¬ ((sessionClose sessionOpenAll).dbClosed = true) := by
  decide

/-- C6 amended: Session.Close closes the session-wide cancel channel, closes
the worker pool (which waits for it to drain) and stops the schema manager,
and leaves the DB handle exactly as it was. -/
theorem c6_close_amended (s : SessionState) :
    (sessionClose s).cancelClosed = true ∧ (sessionClose s).wpClosed = true
    ∧ (sessionClose s).schemaStopped = true ∧ (sessionClose s).dbClosed = s.dbClosed :=
  ⟨rfl, rfl, rfl, rfl⟩

/-- Witness for C6 amended on a fully open session. -/
theorem c6_close_amended_w :
    (sessionClose sessionOpenAll).cancelClosed = true
    ∧ (sessionClose sessionOpenAll).wpClosed = true
    ∧ (sessionClose sessionOpenAll).schemaStopped = true
    ∧ (sessionClose sessionOpenAll).dbClosed = sessionOpenAll.dbClosed :=
  c6_close_amended sessionOpenAll

/-- C7: on a postgres configuration, NewSession picks the no-SSL template
exactly when there is one hostname, a nonempty password, a nonempty user and
an empty certDir; picks the SSL template exactly when certDir and user are
nonempty; and in every other case returns the ConfigError without creating a
session. -/
theorem c7_connstring_selection (c : SessionConfig) (hpg : c.typeName = "postgres") :
    (newSessionSelect c = ConnOutcome.noSSLTemplate ↔
      (c.hostNames.length = 1 ∧ c.password ≠ "" ∧ c.user ≠ "" ∧ c.certDir = ""))
    ∧ (newSessionSelect c = ConnOutcome.sslTemplate ↔ (c.certDir ≠ "" ∧ c.user ≠ ""))
    ∧ (¬ (c.hostNames.length = 1 ∧ c.password ≠ "" ∧ c.user ≠ "" ∧ c.certDir = "") →
        ¬ (c.certDir ≠ "" ∧ c.user ≠ "") →
        newSessionSelect c
          = ConnOutcome.configErr "Postgres sessions require a password and exactly one hostname"
        ∧ newSessionRun c
          = SessionResult.errConfig "Postgres sessions require a password and exactly one hostname") := by
  have hsel : newSessionSelect c =
      (if c.hostNames.length = 1 ∧ c.password ≠ "" ∧ c.certDir = "" ∧ c.user ≠ "" then
        ConnOutcome.noSSLTemplate
      else if c.certDir ≠ "" ∧ c.user ≠ "" then ConnOutcome.sslTemplate
      else ConnOutcome.configErr "Postgres sessions require a password and exactly one hostname") := by
    unfold newSessionSelect
    rw [if_pos hpg]
  by_cases h1 : c.hostNames.length = 1 ∧ c.password ≠ "" ∧ c.certDir = "" ∧ c.user ≠ ""
  · rw [if_pos h1] at hsel
    refine ⟨?_, ?_, ?_⟩
    · exact ⟨fun _ => ⟨h1.1, h1.2.1, h1.2.2.2, h1.2.2.1⟩, fun _ => hsel⟩
    · constructor
      · intro hcon
        rw [hsel] at hcon
        exact absurd hcon (by decide)
      · intro hssl
        exact absurd h1.2.2.1 hssl.1
    · intro hn _
      exact absurd ⟨h1.1, h1.2.1, h1.2.2.2, h1.2.2.1⟩ hn
  · rw [if_neg h1] at hsel
    by_cases h2 : c.certDir ≠ "" ∧ c.user ≠ ""
    · rw [if_pos h2] at hsel
      refine ⟨?_, ?_, ?_⟩
      · constructor
        · intro hcon
          rw [hsel] at hcon
          exact absurd hcon (by decide)
        · intro hc
          exact absurd ⟨hc.1, hc.2.1, hc.2.2.2, hc.2.2.1⟩ h1
      · exact ⟨fun _ => h2, fun _ => hsel⟩
      · intro _ hn2
        exact absurd h2 hn2
    · rw [if_neg h2] at hsel
      refine ⟨?_, ?_, ?_⟩
      · constructor
        · intro hcon
          rw [hsel] at hcon
          exact absurd hcon (by decide)
        · intro hc
          exact absurd ⟨hc.1, hc.2.1, hc.2.2.2, hc.2.2.1⟩ h1
      · constructor
        · intro hcon
          rw [hsel] at hcon
          exact absurd hcon (by decide)
        · intro hssl
          exact absurd hssl h2
      · intro _ _
        refine ⟨hsel, ?_⟩
        unfold newSessionRun
        rw [hsel]

/-- Witness for C7 at a concrete postgres configuration meeting the no-SSL
criteria. -/
theorem c7_connstring_selection_w :
    (newSessionSelect cfgNoSSL = ConnOutcome.noSSLTemplate ↔
      (cfgNoSSL.hostNames.length = 1 ∧ cfgNoSSL.password ≠ "" ∧ cfgNoSSL.user ≠ ""
        ∧ cfgNoSSL.certDir = ""))
    ∧ (newSessionSelect cfgNoSSL = ConnOutcome.sslTemplate ↔
        (cfgNoSSL.certDir ≠ "" ∧ cfgNoSSL.user ≠ ""))
    ∧ (¬ (cfgNoSSL.hostNames.length = 1 ∧ cfgNoSSL.password ≠ "" ∧ cfgNoSSL.user ≠ ""
          ∧ cfgNoSSL.certDir = "") →
        ¬ (cfgNoSSL.certDir ≠ "" ∧ cfgNoSSL.user ≠ "") →
        newSessionSelect cfgNoSSL
          = ConnOutcome.configErr "Postgres sessions require a password and exactly one hostname"
        ∧ newSessionRun cfgNoSSL
          = SessionResult.errConfig "Postgres sessions require a password and exactly one hostname") :=
  c7_connstring_selection cfgNoSSL rfl

/-- C8: every capture accepted by addToBuffer is dispatched as a row whose
origin AS is the last element of the AS path (0 when the path is empty) and
whose next hop is 0.0.0.0 when the next hop failed to parse. -/
theorem c8_row_origin_nexthop (ts : Nat) (colIP : String) (peerIP : Option String)
    (asPath : List Int) (nextHop : Option String) (adv wdr : List String) (pm : List Nat)
    (row : CaptureRow)
    (hrow : addToBufferRow ts colIP peerIP asPath nextHop adv wdr pm = some row) :
    row.originAs = lastOrZero asPath ∧ (nextHop = none → row.nextHop = "0.0.0.0") := by
  cases peerIP with
  | none => exact absurd hrow (by simp [addToBufferRow])
  | some pip =>
    simp only [addToBufferRow] at hrow
    rw [Option.some.injEq] at hrow
    subst hrow
    constructor
    · exact origin_eq_lastOrZero asPath
    · intro hn
      subst hn
      rfl

/-- Witness for C8 on a capture with AS path 3, 7 and an unparsable next hop. -/
theorem c8_row_origin_nexthop_w :
    rowEx.originAs = lastOrZero [3, 7]
    ∧ ((none : Option String) = none → rowEx.nextHop = "0.0.0.0") :=
  c8_row_origin_nexthop 0 "10.0.0.1" (some "10.0.0.2") [3, 7] none [] [] [] rowEx rfl

/-- C9: SessionStream.Flush returns nil no matter what errors the buffer
flushes and the executor's Done produce, so a caller cannot detect a failed
flush or a failed commit from Flush's return value. -/
theorem c9_flush_returns_nil (s : StreamState) (bufErrs : List (Option String)) :
    (sessionStreamFlush s bufErrs).2 = none :=
  rfl

/-- Witness for C9 on a stream whose buffers fail to flush and whose executor
Done would return ErrTxDone. -/
theorem c9_flush_returns_nil_w :
    (sessionStreamFlush streamStateDoneEx [some "insert failed"]).2 = none :=
  c9_flush_returns_nil streamStateDoneEx [some "insert failed"]

/-- C10: on a postgres configuration with nonempty certDir and user but an
empty hostNames list, NewSession reaches the SSL branch and panics indexing
h[0], instead of returning a ConfigError. -/
theorem c10_ssl_empty_hosts (c : SessionConfig)
    (hpg : c.typeName = "postgres") (hcd : c.certDir ≠ "") (hu : c.user ≠ "")
    (hh : c.hostNames = []) :
    newSessionRun c = SessionResult.indexOutOfRange
    ∧ isErrConfig (newSessionRun c) = false := by
  have h1 : ¬ (c.hostNames.length = 1 ∧ c.password ≠ "" ∧ c.certDir = "" ∧ c.user ≠ "") := by
    intro hcon
    rw [hh] at hcon
    simp at hcon
  have hsel : newSessionSelect c = ConnOutcome.sslTemplate := by
    unfold newSessionSelect
    rw [if_pos hpg, if_neg h1, if_pos ⟨hcd, hu⟩]
  have hrun : newSessionRun c = SessionResult.indexOutOfRange := by
    unfold newSessionRun
    rw [hsel, hh]
  refine ⟨hrun, ?_⟩
  rw [hrun]
  rfl

/-- Witness for C10 at a concrete SSL configuration without hostnames. -/
theorem c10_ssl_empty_hosts_w :
    newSessionRun cfgSSLNoHost = SessionResult.indexOutOfRange
    ∧ isErrConfig (newSessionRun cfgSSLNoHost) = false :=
  c10_ssl_empty_hosts cfgSSLNoHost rfl (by decide) (by decide) rfl
